import Mathlib

/-!
Shallow embedding of the LAMMPS accelerator-library device manager
(`lib/gpu/device.cpp`, class `Device<numtyp,acctyp>`).

External collaborators (MPI, the UCL device/driver layer, and the client
objects `Atom`, `Answer`, `Neighbor`) are modelled by environment records:
MPI rank/communicator queries and collaborator `init`/`add_fields` success
are oracle values, while every piece of logic implemented in `device.cpp`
itself (the hostname grouping, the device-index arithmetic, the status
codes, the reference-counted lifecycle, the kernel-parameter clamping and
the overhead-estimate aggregation) is translated directly from the source.

C++ `int` values are modelled as `Int` (no arithmetic here approaches
overflow), C++ `double` values as `ℚ` (the doubles involved are exact at
the magnitudes used: `ceil(double(p)/d)` for `0 < p, d < 2^31` equals the
rational ceiling because the rounding error of the division is below the
distance from any non-integer quotient to the nearest integer).
C++ `/` and `%` on `int` truncate toward zero, hence `Int.tdiv`/`Int.tmod`.
-/

namespace LammpsGpu

/-! ## The hostname map of `Device::init_device`

`device.cpp` collects one processor name per world rank and counts them in
a `std::map<std::string,int>`.  A `std::map` iterates in ascending key
order, so we model it as an association list kept sorted by key. -/

/-- One `name_map[i_string]` update of `Device::init_device`: insert `k`
into the key-sorted association list, incrementing its count if present
(`np->second++`) and starting it at 1 otherwise (`name_map[i_string]=1`). -/
def mapInsert : List (String × Nat) → String → List (String × Nat)
  | [], k => [(k, 1)]
  | (k', v) :: t, k =>
    if k = k' then (k', v + 1) :: t
    else if k < k' then (k, 1) :: (k', v) :: t
    else (k', v) :: mapInsert t k

/-- The full `name_map` built by the loop over the gathered node names. -/
def buildNameMap (names : List String) : List (String × Nat) :=
  names.foldl mapInsert []

/-- `procs_per_node = name_map.begin()->second`: the count stored at the
smallest key of the `std::map` (0 for the unreachable empty gather). -/
def procsPerNode (names : List String) : Nat :=
  match buildNameMap names with
  | [] => 0
  | e :: _ => e.2

/-- The `split_id` loop of `Device::init_device`: walk the map in its
iteration order and record the position of this process's node name
(`split_id` stays 0 when the name is absent, as in the source). -/
def splitId (names : List String) (node_string : String) : Nat :=
  match (buildNameMap names).findIdx? (fun e => e.1 = node_string) with
  | some i => i
  | none => 0

/-! Spec-side grouping, used only to compare against the code.  The spec
says processes are grouped "preserving first-seen order" and that
`procs_per_node` is the size of the *first* group in that order. -/

/-- Modelled from the spec: insert `k` into an association list that keeps
groups in first-seen order (a new identifier is appended at the end). -/
def firstSeenInsert : List (String × Nat) → String → List (String × Nat)
  | [], k => [(k, 1)]
  | (k', v) :: t, k =>
    if k = k' then (k', v + 1) :: t
    else (k', v) :: firstSeenInsert t k

/-- Modelled from the spec: the groups of distinct host identifiers in
first-seen order, each with its size. -/
def firstSeenGroups (names : List String) : List (String × Nat) :=
  names.foldl firstSeenInsert []

/-- Modelled from the spec: the size of the first group discovered in
first-seen order. -/
def firstSeenProcsPerNode (names : List String) : Nat :=
  match firstSeenGroups names with
  | [] => 0
  | e :: _ => e.2

/-- `static_cast<int>(ceil(static_cast<double>(p)/d))` of the source.
The `double` division is exact for the `int`-sized operands involved, so
the source computes the true ceiling of `p / d`; for the positive
divisors used by the caller this equals `-((-p) / d)` in Euclidean
integer division, the executable form used here (the agreement with the
rational ceiling is the theorem `ceilDivDouble_eq_ceil`). -/
def ceilDivDouble (p d : Int) : Int :=
  -((-p) / d)

/-! ## Device-manager state

Fields mirror the members of `Device<numtyp,acctyp>` written by the
functions modelled here.  The `gpu` pointer is modelled by `gpu_alloc`
(object exists) and `gpu_set_index` (the index passed to `gpu->set`,
`none` until a device is bound).  The client-side `Atom` storage owned by
the manager is modelled by its allocation flag and its `charge`/`quat`
field flags; `_neighbor_shared` by an allocation flag. -/

structure DeviceState where
  _init_count : Int
  _device_init : Bool
  _gpu_mode : Int
  _first_device : Int
  _last_device : Int
  _compiled : Bool
  _nthreads : Int
  _threads_per_atom : Int
  _threads_per_charge : Int
  _particle_split : ℚ
  _comm_world : Int
  _comm_replica : Int
  _comm_gpu : Int
  _world_me : Int
  _world_size : Int
  _replica_me : Int
  _replica_size : Int
  _gpu_rank : Int
  _procs_per_gpu : Int
  _time_device : Bool
  _long_range_precompute : Int
  gpu_alloc : Bool
  gpu_set_index : Option Int
  _ptx_arch : ℚ
  _num_mem_threads : Int
  _warp_size : Int
  _pppm_max_spline : Int
  _pppm_block : Int
  _block_pair : Int
  _max_shared_types : Int
  _block_cell_2d : Int
  _block_cell_id : Int
  _block_nbor_build : Int
  _block_bio_pair : Int
  _max_bio_shared_types : Int
  atom_alloc : Bool
  atom_charge : Bool
  atom_quat : Bool
  neighbor_shared_alloc : Bool
  _data_in_estimate : Int
  _data_out_estimate : Int

/-- The `Device()` constructor: `_init_count(0), _device_init(false),
_gpu_mode(GPU_FORCE), _first_device(0), _last_device(0), _compiled(false)`.
All other members are uninitialized in the source; the model gives them
inert defaults (the modelled code never reads them before writing them). -/
def freshDevice : DeviceState where
  _init_count := 0
  _device_init := false
  _gpu_mode := 0
  _first_device := 0
  _last_device := 0
  _compiled := false
  _nthreads := 0
  _threads_per_atom := 0
  _threads_per_charge := 0
  _particle_split := 0
  _comm_world := 0
  _comm_replica := 0
  _comm_gpu := 0
  _world_me := 0
  _world_size := 0
  _replica_me := 0
  _replica_size := 0
  _gpu_rank := 0
  _procs_per_gpu := 0
  _time_device := false
  _long_range_precompute := 0
  gpu_alloc := false
  gpu_set_index := none
  _ptx_arch := 0
  _num_mem_threads := 0
  _warp_size := 0
  _pppm_max_spline := 0
  _pppm_block := 0
  _block_pair := 0
  _max_shared_types := 0
  _block_cell_2d := 0
  _block_cell_id := 0
  _block_nbor_build := 0
  _block_bio_pair := 0
  _max_bio_shared_types := 0
  atom_alloc := false
  atom_charge := false
  atom_quat := false
  neighbor_shared_alloc := false
  _data_in_estimate := 0
  _data_out_estimate := 0

/-- Oracle values produced by the bound UCL device and the kernel build:
`num_devices` is `gpu->num_devices()`, `data` the 14-int introspection
buffer written by `kernel_info`, `arch` is `gpu->arch()`, `group_size` is
`gpu->group_size()`, `double_precision` is `gpu->double_precision()`,
`load_success` the result of `dev_program->load_string`, and `use_opencl`
selects the `USE_OPENCL` build (which skips the arch check). -/
structure GpuEnv where
  num_devices : Int
  double_precision : Bool
  load_success : Bool
  use_opencl : Bool
  arch : ℚ
  group_size : Int
  data : Fin 14 → Int

/-- Oracle values produced by the MPI layer during `init_device`: the
gathered processor names (one per world rank), this process's own name,
and the ranks/sizes and communicator handles MPI reports.  `node_rank` is
the rank within the per-node communicator created by the first
`MPI_Comm_split`. -/
structure TopoEnv where
  node_names : List String
  node_name : String
  world_me : Int
  replica_me : Int
  replica_size : Int
  node_rank : Int
  gpu_comm : Int
  gpu_rank : Int

/-- `Device::compile_kernels()`.  State updates follow the source order:
early return when `_compiled`; `-4` on a failed `load_string` (before
`_compiled` is set); `_compiled=true`; introspection read; `_ptx_arch`
check (CUDA builds only) returning `-4` with `_compiled` already true;
registry population; block-size clamps; lane clamps. -/
def Device.compile_kernels (g : GpuEnv) (s : DeviceState) : Int × DeviceState :=
  if s._compiled then (0, s)
  else if !g.load_success then (-4, s)
  else
  let s : DeviceState := { s with _compiled := true }
  let s : DeviceState := { s with _ptx_arch := (g.data 0 : ℚ) / 100 }
  if (!g.use_opencl) && decide (g.arch < s._ptx_arch) then (-4, s)
  else
  let s : DeviceState := { s with _num_mem_threads := g.data 1, _warp_size := g.data 2 }
  let s : DeviceState := if s._threads_per_atom < 1 then
    { s with _threads_per_atom := g.data 3 } else s
  let s : DeviceState := if s._threads_per_charge < 1 then
    { s with _threads_per_charge := g.data 13 } else s
  let s : DeviceState := { s with
    _pppm_max_spline := g.data 4
    _pppm_block := g.data 5
    _block_pair := g.data 6
    _max_shared_types := g.data 7
    _block_cell_2d := g.data 8
    _block_cell_id := g.data 9
    _block_nbor_build := g.data 10
    _block_bio_pair := g.data 11
    _max_bio_shared_types := g.data 12 }
  let s : DeviceState := if g.group_size < s._block_pair then
    { s with _block_pair := g.group_size } else s
  let s : DeviceState := if g.group_size < s._block_bio_pair then
    { s with _block_bio_pair := g.group_size } else s
  let s : DeviceState := if s._warp_size < s._threads_per_atom then
    { s with _threads_per_atom := s._warp_size } else s
  let s : DeviceState := if s._warp_size.tmod s._threads_per_atom ≠ 0 then
    { s with _threads_per_atom := 1 } else s
  let s : DeviceState := if s._warp_size < s._threads_per_charge then
    { s with _threads_per_charge := s._warp_size } else s
  let s : DeviceState := if s._warp_size.tmod s._threads_per_charge ≠ 0 then
    { s with _threads_per_charge := 1 } else s
  (0, s)

/-- `Device::init_device`.  The thread/lane assignments happen before the
`_device_init` early return, exactly as in the source; the topology is
then derived from the gathered names, the device index computed, and the
kernels compiled.  `my_gpu >= gpu->num_devices()` yields `-2` with the
manager left marked initialized. -/
def Device.init_device (e : TopoEnv) (g : GpuEnv) (world replica : Int)
    (first_gpu last_gpu gpu_mode : Int) (p_split : ℚ)
    (nthreads t_per_atom : Int) (s : DeviceState) : Int × DeviceState :=
  let s : DeviceState := { s with
    _nthreads := nthreads
    _threads_per_atom := t_per_atom
    _threads_per_charge := t_per_atom }
  if s._device_init then (0, s)
  else
  let s : DeviceState := { s with
    _device_init := true
    _comm_world := world
    _comm_replica := replica
    _first_device := first_gpu
    _last_device := last_gpu
    _gpu_mode := gpu_mode
    _particle_split := p_split
    _world_me := e.world_me
    _world_size := (e.node_names.length : Int)
    _replica_me := e.replica_me
    _replica_size := e.replica_size }
  let procs_per_node : Int := (procsPerNode e.node_names : Int)
  let node_rank : Int := e.node_rank
  let s : DeviceState := { s with
    _procs_per_gpu := ceilDivDouble procs_per_node (last_gpu - first_gpu + 1) }
  let my_gpu : Int := node_rank.tdiv s._procs_per_gpu + first_gpu
  let s : DeviceState := { s with _time_device := true }
  let s : DeviceState := if 1 < s._procs_per_gpu then { s with _time_device := false } else s
  let s : DeviceState := { s with _comm_gpu := e.gpu_comm, _gpu_rank := e.gpu_rank }
  let s : DeviceState := { s with gpu_alloc := true }
  if g.num_devices ≤ my_gpu then (-2, s)
  else
  let s : DeviceState := { s with gpu_set_index := some my_gpu }
  let s : DeviceState := { s with _long_range_precompute := 0 }
  Device.compile_kernels g s

/-! ## Attach/detach lifecycle -/

/-- Oracle success results of the collaborator calls made by
`Device::init`: `atom.init`, `atom.add_fields`, `ans.init` and
`nbor->init` (each returns false exactly on allocation failure). -/
structure ClientEnv where
  atom_init_ok : Bool
  atom_add_ok : Bool
  ans_init_ok : Bool
  nbor_init_ok : Bool

/-- `Device::init(ans, charge, rot, nlocal, host_nlocal, nall, nbor,
maxspecial, gpu_host, max_nbors, cell_size, pre_cut)` — the attach call.
`accIsDouble` models the compile-time test
`sizeof(acctyp)==sizeof(double)` of the template instantiation.
Collaborator sizing arguments that only flow into the collaborators are
not tracked; their success is the oracle in `c`.  The `Except` threads
the early `return -3` states: in the `_init_count==0` branch `atom.init`
runs before the `_data_in_estimate` increments, in the other branch the
increments happen before `atom.add_fields`, exactly as in the source. -/
def Device.init (g : GpuEnv) (c : ClientEnv) (accIsDouble charge rot : Bool)
    (s : DeviceState) : Int × DeviceState :=
  if !s._device_init then (-1, s)
  else if accIsDouble && !g.double_precision then (-5, s)
  else
  let s : DeviceState := { s with _data_in_estimate := 0, _data_out_estimate := 1 }
  let r : Except DeviceState DeviceState :=
    if s._init_count = 0 then
      if !c.atom_init_ok then .error s
      else
        let s : DeviceState := { s with atom_alloc := true, atom_charge := charge, atom_quat := rot }
        let s : DeviceState := { s with _data_in_estimate := s._data_in_estimate + 1 }
        let s : DeviceState := if charge then
          { s with _data_in_estimate := s._data_in_estimate + 1 } else s
        let s : DeviceState := if rot then
          { s with _data_in_estimate := s._data_in_estimate + 1 } else s
        .ok s
    else
      let s : DeviceState := if !s.atom_charge && charge then
        { s with _data_in_estimate := s._data_in_estimate + 1 } else s
      let s : DeviceState := if !s.atom_quat && rot then
        { s with _data_in_estimate := s._data_in_estimate + 1 } else s
      if !c.atom_add_ok then .error s
      else .ok { s with atom_charge := s.atom_charge || charge,
                        atom_quat := s.atom_quat || rot }
  match r with
  | .error se => (-3, se)
  | .ok s =>
    if !c.ans_init_ok then (-3, s)
    else if !c.nbor_init_ok then (-3, s)
    else
    let s : DeviceState := { s with neighbor_shared_alloc := true }
    let s : DeviceState := { s with _init_count := s._init_count + 1 }
    (0, s)

/-- `Device::set_single_precompute(pppm)`: registers the single-precision
long-range precompute client (`_long_range_precompute=1`). -/
def Device.set_single_precompute (s : DeviceState) : DeviceState :=
  { s with _long_range_precompute := 1 }

/-- `Device::set_double_precompute(pppm)`: registers the double-precision
long-range precompute client (`_long_range_precompute=2`). -/
def Device.set_double_precompute (s : DeviceState) : DeviceState :=
  { s with _long_range_precompute := 2 }

/-- `Device::clear()` — the detach call: only acts when `_init_count>0`;
resets the precompute hook, decrements the count, and on reaching zero
frees the atom and shared neighbor storage and (when compiled) the kernel
module. -/
def Device.clear (s : DeviceState) : DeviceState :=
  if 0 < s._init_count then
    let s : DeviceState := { s with _long_range_precompute := 0 }
    let s : DeviceState := { s with _init_count := s._init_count - 1 }
    if s._init_count = 0 then
      let s : DeviceState := { s with atom_alloc := false, atom_charge := false, atom_quat := false }
      let s : DeviceState := { s with neighbor_shared_alloc := false }
      if s._compiled then { s with _compiled := false } else s
    else s
  else s

/-- `Device::clear_device()`: `while (_init_count>0) clear();` followed by
deleting the `gpu` object when `_device_init` (each `clear` with a
positive count decrements it by exactly one, so the loop runs
`_init_count` times). -/
def Device.clear_device (s : DeviceState) : DeviceState :=
  let s : DeviceState := Device.clear^[s._init_count.toNat] s
  if s._device_init then { s with gpu_alloc := false, _device_init := false } else s

/-! ## Overhead estimator -/

/-- `MPI_Allreduce(&x, ..., MPI_MAX, gpu_comm())`: the maximum of this
process's value and the values contributed by the other members of the
per-device communicator. -/
def mpiMaxReduce (x : ℚ) (peers : List ℚ) : ℚ :=
  peers.foldl max x

/-- Oracle timing data for `Device::estimate_gpu_overhead`: per trial,
this process's fused-region device time (`over_timer.seconds()`) and
host-clock time (`MPI_Wtime` difference), and the values the other
processes of the per-device communicator contribute to the two
`MPI_Allreduce(MPI_MAX)` calls. -/
structure OverheadEnv where
  fused : Fin 10 → ℚ
  driver : Fin 10 → ℚ
  fused_peers : Fin 10 → List ℚ
  driver_peers : Fin 10 → List ℚ

/-- One operation issued inside the timed region of an
`estimate_gpu_overhead` trial. -/
inductive OverheadOp where
  | transfer_in (i : Nat)
  | kernel_launch (i : Nat)
  | transfer_out (i : Nat)
  deriving Repr, DecidableEq

/-- The fused timed region of one trial, read off the three loops of the
source: `_data_in_estimate` host→device copies, then `kernel_calls`
launches of the trivial `zero` kernel, then `_data_out_estimate`
device→host copies. -/
def trialRegion (data_in kernel_calls data_out : Nat) : List OverheadOp :=
  (List.range data_in).map OverheadOp.transfer_in
    ++ (List.range kernel_calls).map OverheadOp.kernel_launch
    ++ (List.range data_out).map OverheadOp.transfer_out

/-- The phase of an operation within a trial's fused region (inbound
transfers, kernel launches, outbound transfers). -/
def overheadPhase : OverheadOp → Nat
  | .transfer_in _ => 0
  | .kernel_launch _ => 1
  | .transfer_out _ => 2

/-- The sequence of timed regions executed by `estimate_gpu_overhead`:
the `for (int i=0; i<10; i++)` trial loop repeats the same fused region
ten times. -/
def overheadTrials (data_in kernel_calls data_out : Nat) : List (List OverheadOp) :=
  (List.range 10).map (fun _ => trialRegion data_in kernel_calls data_out)

/-- `Device::estimate_gpu_overhead(kernel_calls, gpu_overhead,
gpu_driver_overhead)`.  First component: the two out-parameters — per
trial the fused-region time and the host-clock time are max-reduced
across the per-device communicator and accumulated, and both
accumulators are divided by `10.0` at the end.  Second component: the
side effect on the device, the sequence of timed regions issued
(`_data_in_estimate` inbound copies, `kernel_calls` launches,
`_data_out_estimate` outbound copies, ten times). -/
def Device.estimate_gpu_overhead (env : OverheadEnv) (s : DeviceState)
    (kernel_calls : Int) : (ℚ × ℚ) × List (List OverheadOp) :=
  let tot := (List.finRange 10).foldl
    (fun acc i =>
      (acc.1 + mpiMaxReduce (env.fused i) (env.fused_peers i),
       acc.2 + mpiMaxReduce (env.driver i) (env.driver_peers i)))
    (0, 0)
  ((tot.1 / 10, tot.2 / 10),
   overheadTrials s._data_in_estimate.toNat kernel_calls.toNat
     s._data_out_estimate.toNat)

/-! ## Derived definitions used by the verification -/

/-- The count the association list records for key `k` (0 when absent). -/
def lookupCount (l : List (String × Nat)) (k : String) : Nat :=
  match l.find? (fun e => e.1 = k) with
  | some e => e.2
  | none => 0

/-- Keys strictly ascending: the iteration order of a `std::map`. -/
def keysSorted (l : List (String × Nat)) : Prop :=
  l.Pairwise (fun a b => a.1 < b.1)

/-- The lane-count resolution applied to each of `_threads_per_atom` and
`_threads_per_charge` by `compile_kernels`: default when the request is
below 1, clamp to the warp size, reset to 1 unless it divides the warp
size. -/
def laneResolve (warp req dflt : Int) : Int :=
  let t : Int := if req < 1 then dflt else req
  let t : Int := if warp < t then warp else t
  if warp.tmod t ≠ 0 then 1 else t

/-! ## Sequences of attach/detach calls -/

/-- One lifecycle call issued by a client module. -/
inductive LifeOp where
  | initOp
  | clearOp
  deriving Repr, DecidableEq

/-- Whether an operation is an `init` call. -/
def LifeOp.isInit : LifeOp → Bool
  | .initOp => true
  | .clearOp => false

/-- Execute one lifecycle call (one fixed client configuration and
collaborator oracle). -/
def lifeStep (g : GpuEnv) (c : ClientEnv) (accIsDouble charge rot : Bool)
    (s : DeviceState) : LifeOp → DeviceState
  | .initOp => (Device.init g c accIsDouble charge rot s).2
  | .clearOp => Device.clear s

/-- Run a sequence of `init`/`clear` calls left to right. -/
def runOps (g : GpuEnv) (c : ClientEnv) (accIsDouble charge rot : Bool) :
    List LifeOp → DeviceState → DeviceState
  | [], s => s
  | op :: rest, s =>
    runOps g c accIsDouble charge rot rest
      (lifeStep g c accIsDouble charge rot s op)

/-- Number of `init` calls minus number of `clear` calls. -/
def balance (ops : List LifeOp) : Int :=
  (ops.countP LifeOp.isInit : Int) - (ops.countP (fun op => !op.isInit) : Int)

/-- The `_init_count` evolution: `init` increments, `clear` decrements
when positive and is a no-op otherwise. -/
def countStep (n : Int) : LifeOp → Int
  | .initOp => n + 1
  | .clearOp => if 0 < n then n - 1 else n

/-- `countStep` folded over a sequence. -/
def countRun : List LifeOp → Int → Int
  | [], n => n
  | op :: rest, n => countRun rest (countStep n op)

/-- Whether an `init` call on state `s` reaches the `_init_count==0`
branch and its `atom.init` succeeds, i.e. performs the one physical
allocation of the shared device storage. -/
def initAllocates (g : GpuEnv) (c : ClientEnv) (accIsDouble : Bool)
    (s : DeviceState) : Bool :=
  s._device_init && !(accIsDouble && !g.double_precision)
    && (s._init_count == 0) && c.atom_init_ok

/-- Number of physical allocations performed along a sequence. -/
def allocCount (g : GpuEnv) (c : ClientEnv) (accIsDouble charge rot : Bool) :
    List LifeOp → DeviceState → Nat
  | [], _ => 0
  | op :: rest, s =>
    (match op with
     | .initOp => if initAllocates g c accIsDouble s then 1 else 0
     | .clearOp => 0)
    + allocCount g c accIsDouble charge rot rest
        (lifeStep g c accIsDouble charge rot s op)

/-- All four collaborator calls succeed. -/
def goodClient (c : ClientEnv) : Prop :=
  c.atom_init_ok = true ∧ c.atom_add_ok = true ∧ c.ans_init_ok = true ∧
    c.nbor_init_ok = true


/-- The contribution of one operation to the balance. -/
def balanceOp : LifeOp → Int
  | .initOp => 1
  | .clearOp => -1


/-! ## Concrete example inputs -/

/-- Introspection data of a typical device: architecture code 350
(i.e. 3.50), 4 memory-access threads, warp size 32, default 4 lanes per
particle and per charge, and plausible block constants. -/
def exData : Fin 14 → Int := fun i =>
  ([350, 4, 32, 4, 8, 128, 256, 11, 8, 128, 128, 320, 11, 4] :
    List Int).getD i.val 0

/-- A single-device GPU environment whose kernel build loads cleanly
(OpenCL build, so the architecture check is skipped). -/
def exGpu : GpuEnv where
  num_devices := 1
  double_precision := true
  load_success := true
  use_opencl := true
  arch := 0
  group_size := 256
  data := exData

/-- A GPU environment that exposes no devices at all. -/
def exGpuNone : GpuEnv where
  num_devices := 0
  double_precision := true
  load_success := true
  use_opencl := true
  arch := 0
  group_size := 256
  data := exData

/-- A single-process topology: one rank on one host. -/
def exTopo : TopoEnv where
  node_names := ["n1"]
  node_name := "n1"
  world_me := 0
  replica_me := 0
  replica_size := 1
  node_rank := 0
  gpu_comm := 0
  gpu_rank := 0

/-- Collaborators whose allocations always succeed. -/
def exClient : ClientEnv where
  atom_init_ok := true
  atom_add_ok := true
  ans_init_ok := true
  nbor_init_ok := true

/-- The manager state after a successful first `init_device` on the
example environment with `first_gpu = last_gpu = 0`, `gpu_mode = 0`,
`particle_split = 1`, `nthreads = 1` and requested `t_per_atom = 3`
(3 does not divide the warp size 32, so the resolved lane count is 1). -/
def exBound : DeviceState :=
  (Device.init_device exTopo exGpu 0 0 0 0 0 1 1 3 freshDevice).2

/-- An example timing oracle: one-second fused regions, half-second host
clock, and one peer process contributing larger times to the reductions. -/
def exOverhead : OverheadEnv where
  fused := fun _ => 1
  driver := fun _ => 1 / 2
  fused_peers := fun _ => [2]
  driver_peers := fun _ => [1]

/-! ## Facts about the hostname map -/

theorem lookupCount_cons {k' : String} {v : Nat} {t : List (String × Nat)}
    {k : String} :
    lookupCount ((k', v) :: t) k = if k' = k then v else lookupCount t k := by
  by_cases h : k' = k
  · simp [lookupCount, List.find?_cons, h]
  · simp [lookupCount, List.find?_cons, h]

theorem lookupCount_eq_zero {l : List (String × Nat)} {k : String}
    (h : ∀ e ∈ l, e.1 ≠ k) : lookupCount l k = 0 := by
  induction l with
  | nil => rfl
  | cons hd t ih =>
    obtain ⟨k', v⟩ := hd
    rw [lookupCount_cons, if_neg (h (k', v) (List.mem_cons_self _ _))]
    exact ih fun e he => h e (List.mem_cons_of_mem _ he)

theorem exists_entry_of_lookupCount_pos {l : List (String × Nat)} {q : String}
    (h : 0 < lookupCount l q) : ∃ e ∈ l, e.1 = q := by
  unfold lookupCount at h
  cases hf : l.find? (fun e => e.1 = q) with
  | none => rw [hf] at h; simp at h
  | some e =>
    refine ⟨e, List.mem_of_find?_eq_some hf, ?_⟩
    simpa using List.find?_some hf

theorem mem_mapInsert {l : List (String × Nat)} {k : String} :
    ∀ e ∈ mapInsert l k, e.1 = k ∨ ∃ u ∈ l, e.1 = u.1 := by
  induction l with
  | nil =>
    intro e he
    simp only [mapInsert, List.mem_singleton] at he
    subst he
    exact Or.inl rfl
  | cons hd t ih =>
    obtain ⟨k', v⟩ := hd
    intro e he
    rw [mapInsert] at he
    by_cases e1 : k = k'
    · rw [if_pos e1] at he
      rcases List.mem_cons.mp he with h | h
      · exact Or.inr ⟨(k', v), List.mem_cons_self _ _, by rw [h]⟩
      · exact Or.inr ⟨e, List.mem_cons_of_mem _ h, rfl⟩
    · rw [if_neg e1] at he
      by_cases e2 : k < k'
      · rw [if_pos e2] at he
        rcases List.mem_cons.mp he with h | h
        · exact Or.inl (by rw [h])
        · rcases List.mem_cons.mp h with h | h
          · exact Or.inr ⟨(k', v), List.mem_cons_self _ _, by rw [h]⟩
          · exact Or.inr ⟨e, List.mem_cons_of_mem _ h, rfl⟩
      · rw [if_neg e2] at he
        rcases List.mem_cons.mp he with h | h
        · exact Or.inr ⟨(k', v), List.mem_cons_self _ _, by rw [h]⟩
        · rcases ih e h with h | ⟨u, hu, hh⟩
          · exact Or.inl h
          · exact Or.inr ⟨u, List.mem_cons_of_mem _ hu, hh⟩

theorem keysSorted_mapInsert {l : List (String × Nat)} {k : String}
    (h : keysSorted l) : keysSorted (mapInsert l k) := by
  induction l with
  | nil => simp [mapInsert, keysSorted]
  | cons hd t ih =>
    obtain ⟨k', v⟩ := hd
    rw [keysSorted, List.pairwise_cons] at h
    obtain ⟨h1, h2⟩ := h
    rw [mapInsert]
    by_cases e1 : k = k'
    · rw [if_pos e1, keysSorted, List.pairwise_cons]
      exact ⟨h1, h2⟩
    · rw [if_neg e1]
      by_cases e2 : k < k'
      · rw [if_pos e2, keysSorted, List.pairwise_cons]
        constructor
        · intro b hb
          rcases List.mem_cons.mp hb with rfl | hb
          · exact e2
          · exact lt_trans e2 (h1 b hb)
        · rw [List.pairwise_cons]
          exact ⟨h1, h2⟩
      · rw [if_neg e2, keysSorted, List.pairwise_cons]
        constructor
        · intro b hb
          rcases mem_mapInsert b hb with hb | ⟨u, hu, hb⟩
          · rw [hb]
            rcases lt_trichotomy k k' with h | h | h
            · exact absurd h e2
            · exact absurd h e1
            · exact h
          · rw [hb]
            exact h1 u hu
        · exact ih h2

theorem lookupCount_mapInsert_self {l : List (String × Nat)} {k : String}
    (h : keysSorted l) :
    lookupCount (mapInsert l k) k = lookupCount l k + 1 := by
  induction l with
  | nil => simp [mapInsert, lookupCount_cons, lookupCount]
  | cons hd t ih =>
    obtain ⟨k', v⟩ := hd
    rw [keysSorted, List.pairwise_cons] at h
    rw [mapInsert]
    by_cases e1 : k = k'
    · subst e1
      rw [if_pos rfl, lookupCount_cons, lookupCount_cons, if_pos rfl, if_pos rfl]
    · rw [if_neg e1]
      by_cases e2 : k < k'
      · rw [if_pos e2, lookupCount_cons, if_pos rfl]
        have h0 : lookupCount ((k', v) :: t) k = 0 := by
          apply lookupCount_eq_zero
          intro e he
          rcases List.mem_cons.mp he with rfl | he
          · exact fun hh => e1 hh.symm
          · exact ne_of_gt (lt_trans e2 (h.1 e he))
        rw [h0]
      · rw [if_neg e2, lookupCount_cons, lookupCount_cons,
          if_neg (fun hh => e1 hh.symm), if_neg (fun hh => e1 hh.symm)]
        exact ih h.2

theorem lookupCount_mapInsert_ne {l : List (String × Nat)} {k q : String}
    (hne : q ≠ k) : lookupCount (mapInsert l k) q = lookupCount l q := by
  induction l with
  | nil =>
    rw [show mapInsert [] k = [(k, 1)] from rfl, lookupCount_cons,
      if_neg (fun hh : k = q => hne hh.symm)]
  | cons hd t ih =>
    obtain ⟨k', v⟩ := hd
    rw [mapInsert]
    by_cases e1 : k = k'
    · subst e1
      rw [if_pos rfl, lookupCount_cons, lookupCount_cons,
        if_neg (fun hh => hne hh.symm), if_neg (fun hh => hne hh.symm)]
    · rw [if_neg e1]
      by_cases e2 : k < k'
      · rw [if_pos e2, lookupCount_cons, if_neg (fun hh => hne hh.symm)]
      · rw [if_neg e2, lookupCount_cons, lookupCount_cons]
        by_cases e3 : k' = q
        · rw [if_pos e3, if_pos e3]
        · rw [if_neg e3, if_neg e3]
          exact ih

theorem buildNameMap_go (names : List String) (m : List (String × Nat))
    (seen : List String) (hs : keysSorted m)
    (hl : ∀ q, lookupCount m q = seen.count q)
    (hm : ∀ e ∈ m, e.1 ∈ seen) :
    keysSorted (names.foldl mapInsert m) ∧
    (∀ q, lookupCount (names.foldl mapInsert m) q = (seen ++ names).count q) ∧
    (∀ e ∈ names.foldl mapInsert m, e.1 ∈ seen ++ names) := by
  induction names generalizing m seen with
  | nil =>
    simp only [List.foldl_nil, List.append_nil]
    exact ⟨hs, hl, hm⟩
  | cons x t ih =>
    have hstep := ih (mapInsert m x) (seen ++ [x]) (keysSorted_mapInsert hs)
      ?_ ?_
    · rw [List.foldl_cons]
      refine ⟨hstep.1, ?_, ?_⟩
      · intro q
        rw [hstep.2.1 q, List.append_assoc]
        rfl
      · intro e he
        have hmm := hstep.2.2 e he
        rw [List.append_assoc] at hmm
        exact hmm
    · intro q
      by_cases hq : q = x
      · subst hq
        rw [lookupCount_mapInsert_self hs, hl]
        simp [List.count_append]
      · rw [lookupCount_mapInsert_ne hq, hl]
        simp [List.count_append, List.count_cons, hq]
    · intro e he
      rcases mem_mapInsert e he with h | ⟨u, hu, h⟩
      · simp [h]
      · rw [h]
        exact List.mem_append_left _ (hm u hu)

/-- The map the source builds is key-sorted, counts every name exactly,
and mentions only gathered names; consequently `procs_per_node` is the
multiplicity of the lexicographically least gathered name. -/
theorem procsPerNode_eq_count_min (names : List String) (h : names ≠ []) :
    ∃ k, k ∈ names ∧ (∀ j ∈ names, k ≤ j) ∧
      procsPerNode names = names.count k := by
  obtain ⟨hsorted, hcount, hmem⟩ :=
    buildNameMap_go names [] [] List.Pairwise.nil (fun q => rfl) (by simp)
  simp only [List.nil_append] at hcount hmem
  have hfold : names.foldl mapInsert [] = buildNameMap names := rfl
  rw [hfold] at hsorted hcount hmem
  obtain ⟨x, hx⟩ := List.exists_mem_of_ne_nil names h
  have hxpos : 0 < lookupCount (buildNameMap names) x := by
    rw [hcount]
    exact List.count_pos_iff.mpr hx
  cases hbm : buildNameMap names with
  | nil =>
    rw [hbm] at hxpos
    exact absurd hxpos (lt_irrefl 0)
  | cons e rest =>
    rw [hbm] at hsorted hcount hmem
    refine ⟨e.1, ?_, ?_, ?_⟩
    · exact hmem e (List.mem_cons_self _ _)
    · intro j hj
      have hjpos : 0 < lookupCount (e :: rest) j := by
        rw [hcount]
        exact List.count_pos_iff.mpr hj
      obtain ⟨u, hu, huj⟩ := exists_entry_of_lookupCount_pos hjpos
      rcases List.mem_cons.mp hu with rfl | hu
      · rw [huj]
      · rw [keysSorted, List.pairwise_cons] at hsorted
        rw [← huj]
        exact le_of_lt (hsorted.1 u hu)
    · have hl : lookupCount (e :: rest) e.1 = e.2 := by
        rcases e with ⟨k0, v0⟩
        rw [lookupCount_cons, if_pos rfl]
      have hp : procsPerNode names = e.2 := by
        simp only [procsPerNode, hbm]
      rw [hp, ← hl, hcount]

/-! ## The ceiling division of `init_device` -/

theorem ceil_div_eq_tdiv {p d : Int} (hp : 0 ≤ p) (hd : 0 < d) :
    ⌈(p : ℚ) / (d : ℚ)⌉ = (p + d - 1).tdiv d := by
  have hnum : (0 : Int) ≤ p + d - 1 := by omega
  rw [Int.tdiv_eq_ediv hnum hd.le]
  have hdq : (0 : ℚ) < (d : ℚ) := by exact_mod_cast hd
  rw [Int.ceil_eq_iff]
  have hmod : ((p + d - 1) / d) * d + (p + d - 1) % d = p + d - 1 := by
    rw [mul_comm]
    exact Int.ediv_add_emod _ _
  have hr0 : 0 ≤ (p + d - 1) % d := Int.emod_nonneg _ hd.ne'
  have hr1 : (p + d - 1) % d < d := Int.emod_lt_of_pos _ hd
  constructor
  · rw [show ((((p + d - 1) / d : Int) : ℚ) - 1) = (((p + d - 1) / d - 1 : Int) : ℚ)
      by push_cast; ring]
    rw [lt_div_iff₀ hdq]
    have : ((p + d - 1) / d - 1) * d < p := by
      have hexp : ((p + d - 1) / d - 1) * d = ((p + d - 1) / d) * d - d := by ring
      rw [hexp]
      linarith [hmod, hr0]
    exact_mod_cast this
  · rw [div_le_iff₀ hdq]
    have : p ≤ ((p + d - 1) / d) * d := by
      linarith [hmod, Int.lt_iff_add_one_le.mp hr1]
    exact_mod_cast this

theorem ceilDivDouble_eq_ceil {p d : Int} (hd : 0 < d) :
    ceilDivDouble p d = ⌈(p : ℚ) / (d : ℚ)⌉ := by
  unfold ceilDivDouble
  have hdq : (0 : ℚ) < (d : ℚ) := by exact_mod_cast hd
  have hmod := Int.ediv_add_emod (-p) d
  have hr0 : 0 ≤ (-p) % d := Int.emod_nonneg _ hd.ne'
  have hr1 : (-p) % d < d := Int.emod_lt_of_pos _ hd
  have hzd : (-((-p) / d)) * d = p + (-p) % d := by
    have hcm : ((-p) / d) * d = d * ((-p) / d) := mul_comm _ _
    have hneg : (-((-p) / d)) * d = -(((-p) / d) * d) := by ring
    rw [hneg, hcm]
    linarith [hmod]
  symm
  rw [Int.ceil_eq_iff]
  constructor
  · rw [show (((-((-p) / d) : Int) : ℚ) - 1) = ((-((-p) / d) - 1 : Int) : ℚ)
      by push_cast; ring]
    rw [lt_div_iff₀ hdq]
    have : (-((-p) / d) - 1) * d < p := by
      have hexp : (-((-p) / d) - 1) * d = (-((-p) / d)) * d - d := by ring
      rw [hexp, hzd]
      omega
    exact_mod_cast this
  · rw [div_le_iff₀ hdq]
    have : p ≤ (-((-p) / d)) * d := by
      rw [hzd]
      omega
    exact_mod_cast this

theorem ceilDivDouble_eq_tdiv {p d : Int} (hp : 0 ≤ p) (hd : 0 < d) :
    ceilDivDouble p d = (p + d - 1).tdiv d :=
  (ceilDivDouble_eq_ceil hd).trans (ceil_div_eq_tdiv hp hd)

/-! ## Facts about `compile_kernels` and `init_device` -/

theorem laneResolve_invariant (warp req dflt : Int) (hw : 1 ≤ warp)
    (hdflt : 1 ≤ dflt) :
    warp.tmod (laneResolve warp req dflt) = 0 ∧
    1 ≤ laneResolve warp req dflt ∧ laneResolve warp req dflt ≤ warp := by
  unfold laneResolve
  set t0 : Int := if req < 1 then dflt else req with ht0
  have h1 : 1 ≤ t0 := by
    rw [ht0]
    split
    · exact hdflt
    · omega
  set t1 : Int := if warp < t0 then warp else t0 with ht1
  have h2 : 1 ≤ t1 ∧ t1 ≤ warp := by
    rw [ht1]
    split
    · exact ⟨hw, le_refl _⟩
    · exact ⟨h1, by omega⟩
  by_cases h3 : warp.tmod t1 ≠ 0
  · rw [if_pos h3]
    exact ⟨Int.tmod_one warp, le_refl 1, hw⟩
  · rw [if_neg h3]
    push_neg at h3
    exact ⟨h3, h2.1, h2.2⟩

theorem laneResolve_reset (warp req dflt : Int) (h1 : 1 ≤ req)
    (h2 : req ≤ warp) (h3 : warp.tmod req ≠ 0) :
    laneResolve warp req dflt = 1 := by
  have hr : ¬req < 1 := by omega
  have hw : ¬warp < req := by omega
  simp [laneResolve, hr, hw, h3]

theorem laneResolve_keep (warp req dflt : Int) (h1 : 1 ≤ req)
    (h2 : req ≤ warp) (h3 : warp.tmod req = 0) :
    laneResolve warp req dflt = req := by
  have hr : ¬req < 1 := by omega
  have hw : ¬warp < req := by omega
  simp [laneResolve, hr, hw, h3]

theorem Device.compile_kernels_of_compiled (g : GpuEnv) (s : DeviceState)
    (h : s._compiled = true) : Device.compile_kernels g s = (0, s) := by
  simp [Device.compile_kernels, h]

theorem Device.compile_kernels_status (g : GpuEnv) (s : DeviceState) :
    (Device.compile_kernels g s).1 = 0 ∨ (Device.compile_kernels g s).1 = -4 := by
  by_cases h1 : s._compiled = true
  · rw [Device.compile_kernels_of_compiled g s h1]
    exact Or.inl rfl
  · by_cases h2 : g.load_success = true
    · by_cases h3 : ((!g.use_opencl) && decide (g.arch < (g.data 0 : ℚ) / 100)) = true
      · right
        simp [Device.compile_kernels, h1, h2, h3]
      · left
        simp [Device.compile_kernels, h1, h2, h3]
    · right
      have h2f : g.load_success = false := by simpa using h2
      simp [Device.compile_kernels, h1, h2f]

theorem Device.compile_kernels_ok (g : GpuEnv) (s : DeviceState)
    (h : s._compiled = true ∨ (g.load_success = true ∧
      ((!g.use_opencl) && decide (g.arch < (g.data 0 : ℚ) / 100)) = false)) :
    (Device.compile_kernels g s).1 = 0 := by
  rcases h with h | ⟨h2, h3⟩
  · rw [Device.compile_kernels_of_compiled g s h]
  · by_cases h1 : s._compiled = true
    · rw [Device.compile_kernels_of_compiled g s h1]
    · simp [Device.compile_kernels, h1, h2, h3]

theorem Device.compile_kernels_preserves (g : GpuEnv) (s : DeviceState) :
    (Device.compile_kernels g s).2._init_count = s._init_count ∧
    (Device.compile_kernels g s).2._device_init = s._device_init ∧
    (Device.compile_kernels g s).2._procs_per_gpu = s._procs_per_gpu ∧
    (Device.compile_kernels g s).2._time_device = s._time_device ∧
    (Device.compile_kernels g s).2.gpu_set_index = s.gpu_set_index ∧
    (Device.compile_kernels g s).2.gpu_alloc = s.gpu_alloc ∧
    (Device.compile_kernels g s).2._nthreads = s._nthreads ∧
    (Device.compile_kernels g s).2._first_device = s._first_device ∧
    (Device.compile_kernels g s).2._last_device = s._last_device ∧
    (Device.compile_kernels g s).2._comm_gpu = s._comm_gpu ∧
    (Device.compile_kernels g s).2._long_range_precompute
      = s._long_range_precompute ∧
    (Device.compile_kernels g s).2.atom_alloc = s.atom_alloc ∧
    (Device.compile_kernels g s).2.neighbor_shared_alloc
      = s.neighbor_shared_alloc := by
  by_cases h1 : s._compiled = true
  · rw [Device.compile_kernels_of_compiled g s h1]
    exact ⟨rfl, rfl, rfl, rfl, rfl, rfl, rfl, rfl, rfl, rfl, rfl, rfl, rfl⟩
  · by_cases h2 : g.load_success = true
    · by_cases h3 : ((!g.use_opencl) && decide (g.arch < (g.data 0 : ℚ) / 100)) = true
      · simp [Device.compile_kernels, h1, h2, h3]
      · simp [Device.compile_kernels, h1, h2, h3,
          apply_ite DeviceState._init_count, apply_ite DeviceState._device_init,
          apply_ite DeviceState._procs_per_gpu, apply_ite DeviceState._time_device,
          apply_ite DeviceState.gpu_set_index, apply_ite DeviceState.gpu_alloc,
          apply_ite DeviceState._nthreads, apply_ite DeviceState._first_device,
          apply_ite DeviceState._last_device, apply_ite DeviceState._comm_gpu,
          apply_ite DeviceState._long_range_precompute,
          apply_ite DeviceState.atom_alloc,
          apply_ite DeviceState.neighbor_shared_alloc]
    · have h2f : g.load_success = false := by simpa using h2
      simp [Device.compile_kernels, h1, h2f]

theorem Device.compile_kernels_lanes (g : GpuEnv) (s : DeviceState)
    (h1 : s._compiled = false) (h2 : g.load_success = true)
    (h3 : ((!g.use_opencl) && decide (g.arch < (g.data 0 : ℚ) / 100)) = false) :
    (Device.compile_kernels g s).1 = 0 ∧
    (Device.compile_kernels g s).2._warp_size = g.data 2 ∧
    (Device.compile_kernels g s).2._threads_per_atom
      = laneResolve (g.data 2) s._threads_per_atom (g.data 3) ∧
    (Device.compile_kernels g s).2._threads_per_charge
      = laneResolve (g.data 2) s._threads_per_charge (g.data 13) := by
  refine ⟨?_, ?_, ?_, ?_⟩ <;>
    simp [Device.compile_kernels, laneResolve, h1, h2, h3,
      apply_ite DeviceState._warp_size, apply_ite DeviceState._threads_per_atom,
      apply_ite DeviceState._threads_per_charge]

theorem Device.init_device_bound (e : TopoEnv) (g : GpuEnv)
    (world replica first_gpu last_gpu gpu_mode : Int) (p_split : ℚ)
    (nthreads t_per_atom : Int) (s : DeviceState)
    (hd : s._device_init = true) :
    Device.init_device e g world replica first_gpu last_gpu gpu_mode p_split
        nthreads t_per_atom s =
      (0, { s with _nthreads := nthreads, _threads_per_atom := t_per_atom,
                   _threads_per_charge := t_per_atom }) := by
  simp [Device.init_device, hd]

/-! ### Behaviour of one `init` / `clear` step -/

theorem Device.init_ok (g : GpuEnv) (c : ClientEnv) (acc ch rot : Bool)
    (s : DeviceState) (hd : s._device_init = true)
    (hacc : (acc && !g.double_precision) = false) (hgood : goodClient c) :
    (Device.init g c acc ch rot s).1 = 0 ∧
    (Device.init g c acc ch rot s).2._init_count = s._init_count + 1 ∧
    (Device.init g c acc ch rot s).2._device_init = s._device_init ∧
    (Device.init g c acc ch rot s).2._compiled = s._compiled := by
  obtain ⟨h1, h2, h3, h4⟩ := hgood
  by_cases h0 : s._init_count = 0 <;>
    simp [Device.init, hd, hacc, h0, h1, h2, h3, h4,
      apply_ite DeviceState._init_count, apply_ite DeviceState._device_init,
      apply_ite DeviceState._compiled]

theorem Device.init_count_cases (g : GpuEnv) (c : ClientEnv)
    (acc ch rot : Bool) (s : DeviceState) :
    (Device.init g c acc ch rot s).2._init_count = s._init_count ∨
    (Device.init g c acc ch rot s).2._init_count = s._init_count + 1 := by
  obtain ⟨ai, aa, an, nb⟩ := c
  by_cases hd : s._device_init = true <;>
  by_cases hacc : (acc && !g.double_precision) = true <;>
  by_cases h0 : s._init_count = 0 <;>
  cases ai <;> cases aa <;> cases an <;> cases nb <;>
    simp [Device.init, hd, hacc, h0,
      apply_ite DeviceState._init_count]

theorem Device.clear_count (s : DeviceState) :
    (Device.clear s)._init_count =
      if 0 < s._init_count then s._init_count - 1 else s._init_count := by
  by_cases h : 0 < s._init_count <;>
    by_cases h2 : s._init_count - 1 = 0 <;>
      simp [Device.clear, h, h2, apply_ite DeviceState._init_count]

theorem Device.clear_keeps_device_init (s : DeviceState) :
    (Device.clear s)._device_init = s._device_init := by
  by_cases h : 0 < s._init_count <;>
    by_cases h2 : s._init_count - 1 = 0 <;>
      simp [Device.clear, h, h2, apply_ite DeviceState._device_init]

theorem Device.clear_precompute (s : DeviceState) (h : 0 < s._init_count) :
    (Device.clear s)._long_range_precompute = 0 := by
  by_cases h2 : s._init_count - 1 = 0 <;>
    simp [Device.clear, h, h2, apply_ite DeviceState._long_range_precompute]

theorem Device.clear_of_zero (s : DeviceState) (h : s._init_count = 0) :
    Device.clear s = s := by
  simp [Device.clear, h]

theorem Device.clear_release (s : DeviceState) (h : s._init_count = 1) :
    (Device.clear s)._init_count = 0 ∧
    (Device.clear s).atom_alloc = false ∧
    (Device.clear s).neighbor_shared_alloc = false ∧
    (Device.clear s)._compiled = false := by
  by_cases hc : s._compiled = true <;>
    simp [Device.clear, h, hc]

/-! ### Behaviour of sequences -/

theorem lifeStep_count (g : GpuEnv) (c : ClientEnv) (acc ch rot : Bool)
    (s : DeviceState) (op : LifeOp) (hd : s._device_init = true)
    (hacc : (acc && !g.double_precision) = false) (hgood : goodClient c) :
    (lifeStep g c acc ch rot s op)._init_count = countStep s._init_count op ∧
    (lifeStep g c acc ch rot s op)._device_init = true := by
  cases op with
  | initOp =>
    obtain ⟨-, hcnt, hdev, -⟩ := Device.init_ok g c acc ch rot s hd hacc hgood
    exact ⟨hcnt, by rw [lifeStep, hdev, hd]⟩
  | clearOp =>
    exact ⟨Device.clear_count s, by rw [lifeStep, Device.clear_keeps_device_init, hd]⟩

theorem runOps_append (g : GpuEnv) (c : ClientEnv) (acc ch rot : Bool)
    (l1 l2 : List LifeOp) (s : DeviceState) :
    runOps g c acc ch rot (l1 ++ l2) s =
      runOps g c acc ch rot l2 (runOps g c acc ch rot l1 s) := by
  induction l1 generalizing s with
  | nil => rfl
  | cons op rest ih => rw [List.cons_append, runOps, runOps, ih]

theorem runOps_count (g : GpuEnv) (c : ClientEnv) (acc ch rot : Bool)
    (ops : List LifeOp) (s : DeviceState) (hd : s._device_init = true)
    (hacc : (acc && !g.double_precision) = false) (hgood : goodClient c) :
    (runOps g c acc ch rot ops s)._init_count = countRun ops s._init_count ∧
    (runOps g c acc ch rot ops s)._device_init = true := by
  induction ops generalizing s with
  | nil => exact ⟨rfl, hd⟩
  | cons op rest ih =>
    obtain ⟨hc, hdd⟩ := lifeStep_count g c acc ch rot s op hd hacc hgood
    have hrec := ih (lifeStep g c acc ch rot s op) hdd
    rw [runOps, countRun, ← hc]
    exact hrec

/-! ### Arithmetic of balances -/

theorem balance_nil : balance [] = 0 := rfl

theorem balance_cons (op : LifeOp) (t : List LifeOp) :
    balance (op :: t) = balanceOp op + balance t := by
  cases op <;> simp [balance, balanceOp, List.countP_cons, LifeOp.isInit] <;> ring

theorem balance_append (l1 l2 : List LifeOp) :
    balance (l1 ++ l2) = balance l1 + balance l2 := by
  simp [balance, List.countP_append]
  ring

theorem countRun_eq_balance (ops : List LifeOp) (a : Int)
    (h : ∀ n, 0 ≤ a + balance (ops.take n)) :
    countRun ops a = a + balance ops := by
  induction ops generalizing a with
  | nil => simp [countRun, balance_nil]
  | cons op rest ih =>
    cases op with
    | initOp =>
      rw [countRun, balance_cons]
      have hstep : countStep a LifeOp.initOp = a + 1 := rfl
      rw [hstep]
      have hrec := ih (a + 1) ?_
      · rw [hrec]
        simp only [balanceOp]
        ring
      · intro n
        have hh := h (n + 1)
        rw [List.take_succ_cons, balance_cons] at hh
        simp only [balanceOp] at hh
        linarith
    | clearOp =>
      have ha : 1 ≤ a := by
        have := h 1
        rw [List.take_succ_cons] at this
        simp [balance_cons, balanceOp, balance_nil] at this
        omega
      rw [countRun]
      have hstep : countStep a LifeOp.clearOp = a - 1 := by
        rw [countStep, if_pos (by omega)]
      rw [hstep, balance_cons]
      have hrec := ih (a - 1) ?_
      · rw [hrec]
        simp [balanceOp]
        ring
      · intro n
        have := h (n + 1)
        rw [List.take_succ_cons, balance_cons] at this
        simp [balanceOp] at this
        linarith

theorem balanced_ops_split (ops : List LifeOp) (hne : ops ≠ [])
    (hb : balance ops = 0) (hdom : ∀ n, 0 ≤ balance (ops.take n)) :
    ∃ q, ops = q ++ [LifeOp.clearOp] ∧ balance q = 1 ∧
      ∀ n, 0 ≤ balance (q.take n) := by
  rcases List.eq_nil_or_concat ops with rfl | ⟨q, b, rfl⟩
  · exact absurd rfl hne
  · simp only [List.concat_eq_append] at hne hb hdom ⊢
    have hq : 0 ≤ balance q := by
      have := hdom q.length
      rwa [List.take_left] at this
    cases b with
    | initOp =>
      exfalso
      rw [balance_append, balance_cons, balance_nil] at hb
      simp [balanceOp] at hb
      omega
    | clearOp =>
      have hb1 : balance q = 1 := by
        rw [balance_append, balance_cons, balance_nil] at hb
        simp [balanceOp] at hb
        omega
      refine ⟨q, rfl, hb1, ?_⟩
      intro n
      by_cases hn : n ≤ q.length
      · have := hdom n
        rwa [List.take_eq_left_iff.mpr (Or.inr hn)] at this
      · rw [List.take_of_length_le (by omega)]
        omega

/-! ### Projection corollaries of `compile_kernels` -/

theorem Device.compile_kernels_keeps_procs (g : GpuEnv) (s : DeviceState) :
    (Device.compile_kernels g s).2._procs_per_gpu = s._procs_per_gpu :=
  (Device.compile_kernels_preserves g s).2.2.1

theorem Device.compile_kernels_keeps_gpu_set (g : GpuEnv) (s : DeviceState) :
    (Device.compile_kernels g s).2.gpu_set_index = s.gpu_set_index :=
  (Device.compile_kernels_preserves g s).2.2.2.2.1

theorem Device.compile_kernels_keeps_dev_init (g : GpuEnv) (s : DeviceState) :
    (Device.compile_kernels g s).2._device_init = s._device_init :=
  (Device.compile_kernels_preserves g s).2.1

theorem Device.compile_kernels_keeps_count (g : GpuEnv) (s : DeviceState) :
    (Device.compile_kernels g s).2._init_count = s._init_count :=
  (Device.compile_kernels_preserves g s).1

/-! ### The unbound path of `init_device` -/

theorem Device.init_device_unbound_topology (e : TopoEnv) (g : GpuEnv)
    (w r f l m : Int) (p : ℚ) (n t : Int) (s : DeviceState)
    (hd : s._device_init = false) :
    (Device.init_device e g w r f l m p n t s).2._procs_per_gpu
      = ceilDivDouble (procsPerNode e.node_names) (l - f + 1) ∧
    (Device.init_device e g w r f l m p n t s).2._device_init = true ∧
    ((Device.init_device e g w r f l m p n t s).1 ≠ -2 →
      (Device.init_device e g w r f l m p n t s).2.gpu_set_index
        = some ((e.node_rank).tdiv
            (ceilDivDouble (procsPerNode e.node_names) (l - f + 1)) + f)) ∧
    ((Device.init_device e g w r f l m p n t s).1 = -2 →
      (Device.init_device e g w r f l m p n t s).2.gpu_set_index
          = s.gpu_set_index ∧
      (Device.init_device e g w r f l m p n t s).2._compiled = s._compiled) ∧
    ((Device.init_device e g w r f l m p n t s).1 = -2 ↔
      g.num_devices ≤ (e.node_rank).tdiv
        (ceilDivDouble (procsPerNode e.node_names) (l - f + 1)) + f) := by
  by_cases hr : g.num_devices ≤ (e.node_rank).tdiv
      (ceilDivDouble ((procsPerNode e.node_names : Nat) : Int) (l - f + 1)) + f
  · refine ⟨?_, ?_, ?_, ?_, ?_⟩ <;>
      simp [Device.init_device, hd, hr, apply_ite DeviceState._procs_per_gpu,
        apply_ite DeviceState._device_init, apply_ite DeviceState.gpu_set_index,
        apply_ite DeviceState._compiled]
  · have hne2 : (Device.init_device e g w r f l m p n t s).1 ≠ -2 := by
      have hstat : (Device.init_device e g w r f l m p n t s).1 = 0 ∨
          (Device.init_device e g w r f l m p n t s).1 = -4 := by
        simp only [Device.init_device, hd, Bool.false_eq_true, if_false,
          if_neg hr]
        exact Device.compile_kernels_status g _
      omega
    refine ⟨?_, ?_, fun _ => ?_, fun habs => absurd habs hne2, ?_⟩
    · simp [Device.init_device, hd, hr, Device.compile_kernels_keeps_procs,
        apply_ite DeviceState._procs_per_gpu]
    · simp [Device.init_device, hd, hr, Device.compile_kernels_keeps_dev_init,
        apply_ite DeviceState._device_init]
    · simp [Device.init_device, hd, hr, Device.compile_kernels_keeps_gpu_set,
        apply_ite DeviceState.gpu_set_index]
    · exact ⟨fun habs => absurd habs hne2, fun hcond => absurd hcond hr⟩

theorem Device.init_device_success (e : TopoEnv) (g : GpuEnv)
    (w r f l m : Int) (p : ℚ) (n t : Int) (s : DeviceState)
    (hd : s._device_init = false)
    (hrange : (e.node_rank).tdiv
      (ceilDivDouble (procsPerNode e.node_names) (l - f + 1)) + f
        < g.num_devices)
    (hcomp : s._compiled = true ∨ (g.load_success = true ∧
      ((!g.use_opencl) && decide (g.arch < (g.data 0 : ℚ) / 100)) = false)) :
    (Device.init_device e g w r f l m p n t s).1 = 0 ∧
    (Device.init_device e g w r f l m p n t s).2._device_init = true := by
  have hr : ¬ (g.num_devices ≤ (e.node_rank).tdiv
      (ceilDivDouble ((procsPerNode e.node_names : Nat) : Int) (l - f + 1)) + f) :=
    not_le.mpr hrange
  constructor
  · simp only [Device.init_device, hd, Bool.false_eq_true, if_false, hr]
    apply Device.compile_kernels_ok
    rcases hcomp with hcl | hcr
    · left
      simpa [apply_ite DeviceState._compiled] using hcl
    · exact Or.inr hcr
  · simp [Device.init_device, hd, hr, Device.compile_kernels_keeps_dev_init,
      apply_ite DeviceState._device_init]

/-! ### Status characterization and failure frame of `init` -/

theorem Device.init_fail_state (g : GpuEnv) (c : ClientEnv) (acc ch rot : Bool)
    (s : DeviceState)
    (h : s._device_init = false ∨ (acc && !g.double_precision) = true) :
    (Device.init g c acc ch rot s).2 = s ∧
    ((Device.init g c acc ch rot s).1 = -1 ∨
      (Device.init g c acc ch rot s).1 = -5) := by
  rcases h with h | h
  · simp [Device.init, h]
  · by_cases hd : s._device_init = true
    · simp [Device.init, hd, h]
    · simp [Device.init, hd]

set_option maxHeartbeats 1000000 in
theorem Device.init_status (g : GpuEnv) (c : ClientEnv) (acc ch rot : Bool)
    (s : DeviceState) :
    (Device.init g c acc ch rot s).1 =
      if s._device_init = false then -1
      else if (acc && !g.double_precision) = true then -5
      else if ((if s._init_count = 0 then c.atom_init_ok else c.atom_add_ok)
               && c.ans_init_ok && c.nbor_init_ok) = true then 0
      else -3 := by
  by_cases hd : s._device_init = true <;>
  by_cases hacc : (acc && !g.double_precision) = true <;>
  by_cases h0 : s._init_count = 0 <;>
  by_cases ha : c.atom_init_ok = true <;>
  by_cases hb : c.atom_add_ok = true <;>
  by_cases hc2 : c.ans_init_ok = true <;>
  by_cases hc3 : c.nbor_init_ok = true <;>
    simp [Device.init, hd, hacc, h0, ha, hb, hc2, hc3]

/-! ### Pure `init` runs -/

theorem runOps_replicate_init (g : GpuEnv) (c : ClientEnv) (acc ch rot : Bool)
    (N : Nat) (s : DeviceState) (hd : s._device_init = true)
    (hacc : (acc && !g.double_precision) = false) (hgood : goodClient c)
    (hcnt : 0 ≤ s._init_count) :
    (runOps g c acc ch rot (List.replicate N LifeOp.initOp) s)._init_count
        = s._init_count + N ∧
    allocCount g c acc ch rot (List.replicate N LifeOp.initOp) s
        = if N = 0 then 0 else if s._init_count = 0 then 1 else 0 := by
  induction N generalizing s with
  | zero => exact ⟨by simp [runOps], by simp [allocCount]⟩
  | succ nn ih =>
    rw [List.replicate_succ]
    obtain ⟨hc, hdd⟩ := lifeStep_count g c acc ch rot s LifeOp.initOp hd hacc hgood
    have hc' : (lifeStep g c acc ch rot s LifeOp.initOp)._init_count
        = s._init_count + 1 := by
      rw [hc]; rfl
    have hcnt' : 0 ≤ (lifeStep g c acc ch rot s LifeOp.initOp)._init_count := by
      omega
    have hrec := ih (lifeStep g c acc ch rot s LifeOp.initOp) hdd hcnt'
    constructor
    · rw [runOps, hrec.1, hc']
      push_cast
      ring
    · rw [allocCount, hrec.2]
      have hnz : ¬ ((lifeStep g c acc ch rot s LifeOp.initOp)._init_count = 0) := by
        omega
      have halloc : initAllocates g c acc s = (s._init_count == 0) := by
        simp [initAllocates, hd, hacc, hgood.1]
      by_cases h0 : s._init_count = 0 <;>
        simp [halloc, hnz, h0]

/-! ### `clear_device` -/

theorem Device.clear_iterate_zero (k : Nat) (s : DeviceState)
    (hk : s._init_count.toNat = k) (h0 : 0 ≤ s._init_count) :
    (Device.clear^[k] s)._init_count = 0 ∧
    (Device.clear^[k] s)._device_init = s._device_init := by
  induction k generalizing s with
  | zero =>
    refine ⟨?_, rfl⟩
    simp only [Function.iterate_zero, id_eq]
    omega
  | succ kk ih =>
    have hpos : 0 < s._init_count := by omega
    have hc : (Device.clear s)._init_count = s._init_count - 1 := by
      rw [Device.clear_count, if_pos hpos]
    rw [Function.iterate_succ_apply]
    have hrec := ih (Device.clear s) (by omega) (by omega)
    exact ⟨hrec.1, hrec.2.trans (Device.clear_keeps_device_init s)⟩

theorem Device.clear_device_spec (s : DeviceState) (h0 : 0 ≤ s._init_count) :
    (Device.clear_device s)._init_count = 0 ∧
    (Device.clear_device s)._device_init = false ∧
    (s._device_init = true → (Device.clear_device s).gpu_alloc = false) := by
  obtain ⟨hc, hd⟩ := Device.clear_iterate_zero s._init_count.toNat s rfl h0
  unfold Device.clear_device
  by_cases hdi : (Device.clear^[s._init_count.toNat] s)._device_init = true
  · rw [if_pos hdi]
    exact ⟨hc, rfl, fun _ => rfl⟩
  · rw [if_neg hdi]
    refine ⟨hc, ?_, ?_⟩
    · simpa using hdi
    · intro hsd
      rw [hsd] at hd
      exact absurd hd hdi

/-! ### Numeric form of the overhead estimate -/

theorem foldl_pair_add {α : Type} (l : List α) (f h : α → ℚ) (a b : ℚ) :
    l.foldl (fun acc i => (acc.1 + f i, acc.2 + h i)) (a, b)
      = (l.foldl (fun x i => x + f i) a, l.foldl (fun x i => x + h i) b) := by
  induction l generalizing a b with
  | nil => rfl
  | cons x tl ih =>
    simp only [List.foldl_cons]
    exact ih (a + f x) (b + h x)

theorem foldl_add_eq_sum {α : Type} (l : List α) (f : α → ℚ) (a : ℚ) :
    l.foldl (fun x i => x + f i) a = a + (l.map f).sum := by
  induction l generalizing a with
  | nil => simp
  | cons x tl ih =>
    rw [List.foldl_cons, ih, List.map_cons, List.sum_cons]
    ring

theorem estimate_gpu_overhead_eq (env : OverheadEnv) (s : DeviceState)
    (kc : Int) :
    (Device.estimate_gpu_overhead env s kc).1.1
      = (∑ i : Fin 10, mpiMaxReduce (env.fused i) (env.fused_peers i)) / 10 ∧
    (Device.estimate_gpu_overhead env s kc).1.2
      = (∑ i : Fin 10, mpiMaxReduce (env.driver i) (env.driver_peers i)) / 10 := by
  unfold Device.estimate_gpu_overhead
  rw [foldl_pair_add]
  refine ⟨?_, ?_⟩ <;>
  · show List.foldl _ _ _ / 10 = _
    rw [foldl_add_eq_sum, zero_add, Fin.sum_univ_def]

theorem trialRegion_phases (d k o : Nat) :
    (trialRegion d k o).map overheadPhase
      = List.replicate d 0 ++ List.replicate k 1 ++ List.replicate o 2 := by
  simp [trialRegion, List.map_map, Function.comp_def, overheadPhase]

theorem overheadTrials_spec (d k o : Nat) :
    (overheadTrials d k o).length = 10 ∧
    ∀ tr ∈ overheadTrials d k o, tr = trialRegion d k o := by
  constructor
  · simp [overheadTrials]
  · intro tr htr
    simp only [overheadTrials, List.mem_map] at htr
    obtain ⟨i, -, htr⟩ := htr
    exact htr.symm

/-- The string comparison `"a" < "b"` used by the example insertions:
`String.lt` does not evaluate by kernel reduction, so we route it through
the character lists. -/
theorem string_a_lt_b : ("a" : String) < "b" := by
  rw [String.lt_iff_toList_lt]; decide

/-- Concrete evaluation of the `std::map` built from `["b", "a", "a"]`. -/
theorem buildNameMap_baa :
    buildNameMap ["b", "a", "a"] = [("a", 2), ("b", 1)] := by
  show mapInsert (mapInsert (mapInsert [] "b") "a") "a" = _
  rw [show mapInsert [] "b" = [("b", 1)] from rfl]
  rw [mapInsert, if_neg (by decide : ¬("a" : String) = "b"),
    if_pos string_a_lt_b]
  rw [mapInsert, if_pos rfl]

/-! ## The claims -/

/-- Claim C1, counterexample: the code counts hostnames in a
`std::map`, which iterates in ascending key order, not first-seen order.
For the gathered names `["b", "a", "a"]` the first-seen grouping starts
with the group of "b" (size 1), but `name_map.begin()` is the entry of
"a", so the code sets `procs_per_node = 2`, not 1. -/
theorem claim_c1_counterexample :
    buildNameMap ["b", "a", "a"] = [("a", 2), ("b", 1)] ∧
    firstSeenGroups ["b", "a", "a"] = [("b", 1), ("a", 2)] ∧
    procsPerNode ["b", "a", "a"] = 2 ∧
    firstSeenProcsPerNode ["b", "a", "a"] = 1 ∧
    procsPerNode ["b", "a", "a"] ≠ firstSeenProcsPerNode ["b", "a", "a"] := by
  have hp : procsPerNode ["b", "a", "a"] = 2 := by
    unfold procsPerNode; rw [buildNameMap_baa]
  refine ⟨buildNameMap_baa, by decide, hp, by decide, by rw [hp]; decide⟩

/-- Claim C1, amended: in `init_device`, processes are grouped by
distinct host identifier in ascending (lexicographic) identifier order —
the iteration order of the `std::map` — with each gathered name counted
exactly once, and `procs_per_node` equals the size of the group of the
lexicographically least host identifier (the first group in that sorted
order, not in first-seen order). -/
theorem claim_c1 (names : List String) (h : names ≠ []) :
    keysSorted (buildNameMap names) ∧
    (∀ q, lookupCount (buildNameMap names) q = names.count q) ∧
    ∃ k, k ∈ names ∧ (∀ j ∈ names, k ≤ j) ∧
      procsPerNode names = names.count k := by
  obtain ⟨hs, hc, -⟩ :=
    buildNameMap_go names [] [] List.Pairwise.nil (fun q => rfl) (by simp)
  simp only [List.nil_append] at hc
  exact ⟨hs, hc, procsPerNode_eq_count_min names h⟩

theorem claim_c1_witness :
    (["b", "a", "a"] : List String) ≠ [] ∧
    (keysSorted (buildNameMap ["b", "a", "a"]) ∧
     (∀ q, lookupCount (buildNameMap ["b", "a", "a"]) q
        = (["b", "a", "a"] : List String).count q) ∧
     ∃ k, k ∈ (["b", "a", "a"] : List String) ∧
       (∀ j ∈ (["b", "a", "a"] : List String), k ≤ j) ∧
       procsPerNode ["b", "a", "a"] = (["b", "a", "a"] : List String).count k) :=
  ⟨by decide, claim_c1 ["b", "a", "a"] (by decide)⟩

/-- Claim C2, counterexample: on the example manager bound with
requested `t_per_atom = 3` (resolved to 1, since 3 does not divide the
warp size 32), a second `init_device` with identical arguments returns 0
but overwrites the resolved `_threads_per_atom` with the raw request 3 —
the lanes-per-particle value is changed by the second call. -/
theorem claim_c2_counterexample :
    exBound._threads_per_atom = 1 ∧
    (Device.init_device exTopo exGpu 0 0 0 0 0 1 1 3 exBound).1 = 0 ∧
    (Device.init_device exTopo exGpu 0 0 0 0 0 1 1 3 exBound).2._threads_per_atom
      = 3 ∧
    (Device.init_device exTopo exGpu 0 0 0 0 0 1 1 3 exBound).2._threads_per_atom
      ≠ exBound._threads_per_atom := by
  refine ⟨?_, ?_, ?_, ?_⟩ <;> decide

/-- Claim C2, amended: a second `init_device` call on an already-bound
manager returns 0 immediately; the device index, communicator handles,
capability constants, attach count and compiled state are unchanged, but
`_nthreads`, `_threads_per_atom` and `_threads_per_charge` are
re-assigned from the raw arguments before the early return — so even
with identical arguments the resolved lanes-per-particle/charge values
from compilation are overwritten by the originally requested value. -/
theorem claim_c2 (e : TopoEnv) (g : GpuEnv) (w r f l m : Int) (p : ℚ)
    (n t : Int) (s : DeviceState) (hd : s._device_init = true) :
    (Device.init_device e g w r f l m p n t s).1 = 0 ∧
    (Device.init_device e g w r f l m p n t s).2 =
      { s with _nthreads := n, _threads_per_atom := t,
               _threads_per_charge := t } ∧
    (Device.init_device e g w r f l m p n t s).2.gpu_set_index
      = s.gpu_set_index ∧
    (Device.init_device e g w r f l m p n t s).2._comm_world = s._comm_world ∧
    (Device.init_device e g w r f l m p n t s).2._comm_replica
      = s._comm_replica ∧
    (Device.init_device e g w r f l m p n t s).2._comm_gpu = s._comm_gpu ∧
    (Device.init_device e g w r f l m p n t s).2._warp_size = s._warp_size ∧
    (Device.init_device e g w r f l m p n t s).2._ptx_arch = s._ptx_arch ∧
    (Device.init_device e g w r f l m p n t s).2._block_pair = s._block_pair ∧
    (Device.init_device e g w r f l m p n t s).2._init_count = s._init_count ∧
    (Device.init_device e g w r f l m p n t s).2._compiled = s._compiled ∧
    (Device.init_device e g w r f l m p n t s).2._nthreads = n ∧
    (Device.init_device e g w r f l m p n t s).2._threads_per_atom = t ∧
    (Device.init_device e g w r f l m p n t s).2._threads_per_charge = t := by
  rw [Device.init_device_bound e g w r f l m p n t s hd]
  exact ⟨rfl, rfl, rfl, rfl, rfl, rfl, rfl, rfl, rfl, rfl, rfl, rfl, rfl, rfl⟩

theorem claim_c2_witness :
    exBound._device_init = true ∧
    (Device.init_device exTopo exGpu 0 0 0 0 0 1 1 3 exBound).1 = 0 ∧
    (Device.init_device exTopo exGpu 0 0 0 0 0 1 1 3 exBound).2._init_count
      = exBound._init_count :=
  ⟨by decide,
   (claim_c2 exTopo exGpu 0 0 0 0 0 1 1 3 exBound (by decide)).1,
   (claim_c2 exTopo exGpu 0 0 0 0 0 1 1 3 exBound (by decide)).2.2.2.2.2.2.2.2.2.1⟩

/-- Claim C3, counterexample: the sequence `[clear, init]` has balanced
counts, yet run on a bound detached manager it ends with
`attach_count = 1`, because the leading `clear` at count 0 is a no-op:
balance alone does not force the final count to 0. -/
theorem claim_c3_counterexample :
    balance [LifeOp.clearOp, LifeOp.initOp] = 0 ∧
    exBound._device_init = true ∧
    exBound._init_count = 0 ∧
    (runOps exGpu exClient false false false
        [LifeOp.clearOp, LifeOp.initOp] exBound)._init_count = 1 := by
  refine ⟨?_, ?_, ?_, ?_⟩ <;> decide

/-- Claim C3, amended: on a bound manager, for every balanced sequence
of successful `init`/`clear` calls in which no prefix has more `clear`
than `init` calls (and with at least one call), the final
`attach_count` is 0 and the atom/neighbor buffers and the compiled
module are released; `N ≥ 1` `init` calls without a matching `clear`
perform exactly one physical allocation and leave `attach_count = N`;
`clear` at `attach_count = 0` is a no-op, so the count never drops
below 0. -/
theorem claim_c3 (g : GpuEnv) (c : ClientEnv) (acc ch rot : Bool)
    (s : DeviceState) (ops : List LifeOp) (N : Nat) (t : DeviceState)
    (op : LifeOp) (hd : s._device_init = true) (h0 : s._init_count = 0)
    (hcmp : s._compiled = true)
    (hacc : (acc && !g.double_precision) = false) (hgood : goodClient c) :
    (balance ops = 0 → (∀ nn, 0 ≤ balance (ops.take nn)) → ops ≠ [] →
      (runOps g c acc ch rot ops s)._init_count = 0 ∧
      (runOps g c acc ch rot ops s).atom_alloc = false ∧
      (runOps g c acc ch rot ops s).neighbor_shared_alloc = false ∧
      (runOps g c acc ch rot ops s)._compiled = false) ∧
    (1 ≤ N →
      (runOps g c acc ch rot (List.replicate N LifeOp.initOp) s)._init_count
        = N ∧
      allocCount g c acc ch rot (List.replicate N LifeOp.initOp) s = 1) ∧
    (t._init_count = 0 → Device.clear t = t) ∧
    (0 ≤ t._init_count → 0 ≤ (lifeStep g c acc ch rot t op)._init_count) := by
  refine ⟨?_, ?_, fun ht => Device.clear_of_zero t ht, ?_⟩
  · intro hb hdom hne
    obtain ⟨q, rfl, hq1, hqdom⟩ := balanced_ops_split ops hne hb hdom
    rw [runOps_append]
    have hrun := runOps_count g c acc ch rot q s hd hacc hgood
    have hcount1 : (runOps g c acc ch rot q s)._init_count = 1 := by
      rw [hrun.1, h0]
      rw [countRun_eq_balance q 0 (by intro nn; simpa using hqdom nn)]
      omega
    have hone : runOps g c acc ch rot [LifeOp.clearOp]
        (runOps g c acc ch rot q s) =
        Device.clear (runOps g c acc ch rot q s) := rfl
    rw [hone]
    exact Device.clear_release _ hcount1
  · intro hN
    obtain ⟨hcnt, halloc⟩ := runOps_replicate_init g c acc ch rot N s hd hacc
      hgood (by omega)
    refine ⟨?_, ?_⟩
    · rw [hcnt, h0]
      omega
    · rw [halloc, if_neg (by omega : ¬N = 0), if_pos h0]
  · intro hge
    cases op with
    | initOp =>
      show 0 ≤ (Device.init g c acc ch rot t).2._init_count
      rcases Device.init_count_cases g c acc ch rot t with hcase | hcase <;>
        omega
    | clearOp =>
      show 0 ≤ (Device.clear t)._init_count
      rw [Device.clear_count]
      split <;> omega

theorem claim_c3_witness :
    exBound._device_init = true ∧ exBound._init_count = 0 ∧
    exBound._compiled = true ∧
    ((balance [LifeOp.initOp, LifeOp.clearOp] = 0 →
      (∀ nn, 0 ≤ balance ([LifeOp.initOp, LifeOp.clearOp].take nn)) →
      ([LifeOp.initOp, LifeOp.clearOp] : List LifeOp) ≠ [] →
      (runOps exGpu exClient false false false
          [LifeOp.initOp, LifeOp.clearOp] exBound)._init_count = 0 ∧
      (runOps exGpu exClient false false false
          [LifeOp.initOp, LifeOp.clearOp] exBound).atom_alloc = false ∧
      (runOps exGpu exClient false false false
          [LifeOp.initOp, LifeOp.clearOp] exBound).neighbor_shared_alloc
        = false ∧
      (runOps exGpu exClient false false false
          [LifeOp.initOp, LifeOp.clearOp] exBound)._compiled = false) ∧
     ((1 : Nat) ≤ 2 →
      (runOps exGpu exClient false false false
          (List.replicate 2 LifeOp.initOp) exBound)._init_count = 2 ∧
      allocCount exGpu exClient false false false
          (List.replicate 2 LifeOp.initOp) exBound = 1) ∧
     (exBound._init_count = 0 → Device.clear exBound = exBound) ∧
     (0 ≤ exBound._init_count →
      0 ≤ (lifeStep exGpu exClient false false false exBound
            LifeOp.initOp)._init_count)) :=
  ⟨by decide, by decide, by decide,
   claim_c3 exGpu exClient false false false exBound
     [LifeOp.initOp, LifeOp.clearOp] 2 exBound LifeOp.initOp
     (by decide) (by decide) (by decide) (by decide)
     ⟨rfl, rfl, rfl, rfl⟩⟩

/-- Claim C4, counterexample: a requested lane count of 48 does not
divide the warp size 32, yet `compile_kernels` resolves it to 32 (it is
first clamped to the warp size), not to 1 — "a requested value that does
not divide W evenly is silently reset to 1" fails for requests above W. -/
theorem claim_c4_counterexample :
    (32 : Int).tmod 48 ≠ 0 ∧
    (Device.compile_kernels exGpu
        { freshDevice with _threads_per_atom := 48,
                           _threads_per_charge := 48 }).2._threads_per_atom
      = 32 ∧
    (Device.compile_kernels exGpu
        { freshDevice with _threads_per_atom := 48,
                           _threads_per_charge := 48 }).2._threads_per_atom
      ≠ 1 := by
  refine ⟨?_, ?_, ?_⟩ <;> decide

/-- Claim C4, amended: after a successful `compile_kernels`, with warp
size `W ≥ 1` and device defaults `≥ 1`, each resolved lane count `R`
satisfies `W tmod R = 0` and `1 ≤ R ≤ W`; a requested value in `[1, W]`
that does not divide `W` evenly is reset to 1, while a requested value
above `W` is first clamped to `W` (which divides itself) rather than
being reset to 1. -/
theorem claim_c4 (g : GpuEnv) (s : DeviceState)
    (h1 : s._compiled = false) (h2 : g.load_success = true)
    (h3 : ((!g.use_opencl) && decide (g.arch < (g.data 0 : ℚ) / 100)) = false)
    (hw : 1 ≤ g.data 2) (hdp : 1 ≤ g.data 3) (hdc : 1 ≤ g.data 13) :
    (Device.compile_kernels g s).1 = 0 ∧
    (Device.compile_kernels g s).2._warp_size = g.data 2 ∧
    (g.data 2).tmod ((Device.compile_kernels g s).2._threads_per_atom) = 0 ∧
    1 ≤ (Device.compile_kernels g s).2._threads_per_atom ∧
    (Device.compile_kernels g s).2._threads_per_atom ≤ g.data 2 ∧
    (g.data 2).tmod ((Device.compile_kernels g s).2._threads_per_charge) = 0 ∧
    1 ≤ (Device.compile_kernels g s).2._threads_per_charge ∧
    (Device.compile_kernels g s).2._threads_per_charge ≤ g.data 2 ∧
    (1 ≤ s._threads_per_atom → s._threads_per_atom ≤ g.data 2 →
      (g.data 2).tmod s._threads_per_atom ≠ 0 →
      (Device.compile_kernels g s).2._threads_per_atom = 1) ∧
    (g.data 2 < s._threads_per_atom →
      (Device.compile_kernels g s).2._threads_per_atom = g.data 2) := by
  obtain ⟨h0, hwf, hta, htc⟩ := Device.compile_kernels_lanes g s h1 h2 h3
  obtain ⟨ha1, ha2, ha3⟩ :=
    laneResolve_invariant (g.data 2) s._threads_per_atom (g.data 3) hw hdp
  obtain ⟨hb1, hb2, hb3⟩ :=
    laneResolve_invariant (g.data 2) s._threads_per_charge (g.data 13) hw hdc
  rw [← hta] at ha1 ha2 ha3
  rw [← htc] at hb1 hb2 hb3
  refine ⟨h0, hwf, ha1, ha2, ha3, hb1, hb2, hb3, ?_, ?_⟩
  · intro hr1 hr2 hr3
    rw [hta]
    exact laneResolve_reset (g.data 2) s._threads_per_atom (g.data 3) hr1 hr2 hr3
  · intro hgt
    rw [hta]
    have hr : ¬s._threads_per_atom < 1 := by omega
    have hw2 : g.data 2 < s._threads_per_atom := hgt
    simp [laneResolve, hr, hw2]

theorem claim_c4_witness :
    ({ freshDevice with _threads_per_atom := 3,
                        _threads_per_charge := 3 } :
        DeviceState)._compiled = false ∧
    exGpu.load_success = true ∧ (1 : Int) ≤ exGpu.data 2 ∧
    (Device.compile_kernels exGpu
        { freshDevice with _threads_per_atom := 3,
                           _threads_per_charge := 3 }).1 = 0 ∧
    (exGpu.data 2).tmod
      ((Device.compile_kernels exGpu
          { freshDevice with _threads_per_atom := 3,
                             _threads_per_charge := 3 }).2._threads_per_atom)
      = 0 :=
  ⟨by decide, by decide, by decide,
   (claim_c4 exGpu
      { freshDevice with _threads_per_atom := 3, _threads_per_charge := 3 }
      (by decide) (by decide) (by decide) (by decide) (by decide)
      (by decide)).1,
   (claim_c4 exGpu
      { freshDevice with _threads_per_atom := 3, _threads_per_charge := 3 }
      (by decide) (by decide) (by decide) (by decide) (by decide)
      (by decide)).2.2.1⟩

/-- Claim C5: `init` returns -1 iff the manager is not bound, -5 iff it
is bound, the accumulation type is double-width and the device lacks
double precision; when bound with acceptable precision it returns -3 iff
one of the collaborator allocations (the branch-appropriate `atom`
call, `ans.init`, or `nbor->init`) fails; and on the -1 and -5 paths
the state is returned unchanged. -/
theorem claim_c5 (g : GpuEnv) (c : ClientEnv) (acc ch rot : Bool)
    (s : DeviceState) :
    ((Device.init g c acc ch rot s).1 = -1 ↔ s._device_init = false) ∧
    ((Device.init g c acc ch rot s).1 = -5 ↔
      (s._device_init = true ∧ acc = true ∧ g.double_precision = false)) ∧
    (s._device_init = true → (acc && !g.double_precision) = false →
      ((Device.init g c acc ch rot s).1 = -3 ↔
        ¬(((if s._init_count = 0 then c.atom_init_ok else c.atom_add_ok)
            && c.ans_init_ok && c.nbor_init_ok) = true))) ∧
    ((Device.init g c acc ch rot s).1 = -1 ∨
       (Device.init g c acc ch rot s).1 = -5 →
      (Device.init g c acc ch rot s).2 = s) := by
  refine ⟨?_, ?_, ?_, ?_⟩
  · rw [Device.init_status]
    split_ifs with hA hB hC <;> simp_all
  · rw [Device.init_status]
    split_ifs with hA hB hC <;>
      simp_all [Bool.and_eq_true, Bool.not_eq_true']
  · intro hd hacc
    rw [Device.init_status]
    split_ifs with hA hB hC <;> simp_all
  · intro hdisj
    rw [Device.init_status] at hdisj
    apply (Device.init_fail_state g c acc ch rot s ?_).1
    by_cases hA : s._device_init = false
    · exact Or.inl hA
    · by_cases hB : (acc && !g.double_precision) = true
      · exact Or.inr hB
      · exfalso
        rw [if_neg hA, if_neg hB] at hdisj
        rcases hdisj with h | h <;> split at h <;> omega

theorem claim_c5_witness :
    ((Device.init exGpu exClient false false false freshDevice).1 = -1 ↔
      freshDevice._device_init = false) ∧
    ((Device.init exGpu exClient false false false freshDevice).1 = -1 ∨
        (Device.init exGpu exClient false false false freshDevice).1 = -5 →
      (Device.init exGpu exClient false false false freshDevice).2
        = freshDevice) :=
  ⟨(claim_c5 exGpu exClient false false false freshDevice).1,
   (claim_c5 exGpu exClient false false false freshDevice).2.2.2⟩

/-- Claim C6: when `init_device` binds the manager, `_procs_per_gpu`
equals `ceil(procs_per_node / (last_gpu - first_gpu + 1))` (the `double`
division of the source computes this ceiling exactly), and when the
request is in range, the bound device index is
`node_rank / _procs_per_gpu + first_gpu` with truncating integer
division, for every device range with `first_gpu ≤ last_gpu`. -/
theorem claim_c6 (e : TopoEnv) (g : GpuEnv) (w r f l m : Int) (p : ℚ)
    (n t : Int) (s : DeviceState) (hd : s._device_init = false)
    (hfl : f ≤ l) :
    (Device.init_device e g w r f l m p n t s).2._procs_per_gpu
      = ⌈((procsPerNode e.node_names : Int) : ℚ) / ((l - f + 1 : Int) : ℚ)⌉ ∧
    ((Device.init_device e g w r f l m p n t s).1 ≠ -2 →
      (Device.init_device e g w r f l m p n t s).2.gpu_set_index
        = some ((e.node_rank).tdiv
            ((Device.init_device e g w r f l m p n t s).2._procs_per_gpu)
              + f)) := by
  obtain ⟨h1, -, h3, -, -⟩ :=
    Device.init_device_unbound_topology e g w r f l m p n t s hd
  have hdpos : (0 : Int) < l - f + 1 := by omega
  refine ⟨h1.trans (ceilDivDouble_eq_ceil hdpos), fun hne => ?_⟩
  rw [h1]
  exact h3 hne

theorem claim_c6_witness :
    freshDevice._device_init = false ∧ (0 : Int) ≤ 0 ∧
    ((Device.init_device exTopo exGpu 0 0 0 0 0 1 1 3 freshDevice).2._procs_per_gpu
      = ⌈((procsPerNode exTopo.node_names : Int) : ℚ)
          / (((0 : Int) - 0 + 1 : Int) : ℚ)⌉ ∧
     ((Device.init_device exTopo exGpu 0 0 0 0 0 1 1 3 freshDevice).1 ≠ -2 →
      (Device.init_device exTopo exGpu 0 0 0 0 0 1 1 3 freshDevice).2.gpu_set_index
        = some ((exTopo.node_rank).tdiv
            ((Device.init_device exTopo exGpu 0 0 0 0 0 1 1 3
              freshDevice).2._procs_per_gpu) + 0))) :=
  ⟨by decide, by decide,
   claim_c6 exTopo exGpu 0 0 0 0 0 1 1 3 freshDevice (by decide) (by decide)⟩

/-- Claim C7: `clear_device` is an unconditional teardown: from any state
with a non-negative attach count it drives `_init_count` to zero by
repeated `clear`, leaves the manager unbound, releases the `gpu` object
whenever one was bound, and from the resulting state `init_device`
succeeds again whenever the requested index is in range and the kernel
image loads. -/
theorem claim_c7 (s : DeviceState) (h0 : 0 ≤ s._init_count) :
    (Device.clear_device s)._init_count = 0 ∧
    (Device.clear_device s)._device_init = false ∧
    (s._device_init = true → (Device.clear_device s).gpu_alloc = false) ∧
    (∀ (e : TopoEnv) (g : GpuEnv) (w r f l m : Int) (p : ℚ) (n t : Int),
      (e.node_rank).tdiv
          (ceilDivDouble (procsPerNode e.node_names) (l - f + 1)) + f
        < g.num_devices →
      g.load_success = true ∧
        ((!g.use_opencl) && decide (g.arch < (g.data 0 : ℚ) / 100)) = false →
      (Device.init_device e g w r f l m p n t (Device.clear_device s)).1
        = 0) := by
  obtain ⟨hc, hd, hg⟩ := Device.clear_device_spec s h0
  refine ⟨hc, hd, hg, ?_⟩
  intro e g w r f l m p n t hrange hload
  exact (Device.init_device_success e g w r f l m p n t _ hd hrange
    (Or.inr hload)).1

theorem claim_c7_witness :
    0 ≤ exBound._init_count ∧
    ((Device.clear_device exBound)._init_count = 0 ∧
     (Device.clear_device exBound)._device_init = false ∧
     (exBound._device_init = true →
       (Device.clear_device exBound).gpu_alloc = false) ∧
     (∀ (e : TopoEnv) (g : GpuEnv) (w r f l m : Int) (p : ℚ) (n t : Int),
       (e.node_rank).tdiv
           (ceilDivDouble (procsPerNode e.node_names) (l - f + 1)) + f
         < g.num_devices →
       g.load_success = true ∧
         ((!g.use_opencl) && decide (g.arch < (g.data 0 : ℚ) / 100)) = false →
       (Device.init_device e g w r f l m p n t (Device.clear_device exBound)).1
         = 0)) :=
  ⟨by decide, claim_c7 exBound (by decide)⟩

/-- Claim C8: `estimate_gpu_overhead` issues exactly ten timed trials;
every trial is the same fused region — the configured inbound transfers,
then the requested trivial kernel launches, then the configured outbound
transfers, in that phase order — and each trial's fused-region and
host-clock times are max-reduced over the per-device communicator, the
two returned overheads being the averages of the ten reduced values. -/
theorem claim_c8 (env : OverheadEnv) (s : DeviceState) (kc : Int) :
    ((Device.estimate_gpu_overhead env s kc).2).length = 10 ∧
    (∀ tr ∈ (Device.estimate_gpu_overhead env s kc).2,
      tr = trialRegion s._data_in_estimate.toNat kc.toNat
            s._data_out_estimate.toNat ∧
      tr.map overheadPhase
        = List.replicate s._data_in_estimate.toNat 0
            ++ List.replicate kc.toNat 1
            ++ List.replicate s._data_out_estimate.toNat 2) ∧
    (Device.estimate_gpu_overhead env s kc).1.1
      = (∑ i : Fin 10, mpiMaxReduce (env.fused i) (env.fused_peers i)) / 10 ∧
    (Device.estimate_gpu_overhead env s kc).1.2
      = (∑ i : Fin 10, mpiMaxReduce (env.driver i) (env.driver_peers i))
          / 10 := by
  have hsnd : (Device.estimate_gpu_overhead env s kc).2
      = overheadTrials s._data_in_estimate.toNat kc.toNat
          s._data_out_estimate.toNat := rfl
  obtain ⟨hl, htr⟩ := overheadTrials_spec s._data_in_estimate.toNat kc.toNat
    s._data_out_estimate.toNat
  obtain ⟨h1, h2⟩ := estimate_gpu_overhead_eq env s kc
  refine ⟨hsnd ▸ hl, ?_, h1, h2⟩
  intro tr htr2
  rw [hsnd] at htr2
  have he := htr tr htr2
  exact ⟨he, he ▸ trialRegion_phases _ _ _⟩

/-- Claim C9: when `init_device` fails with -2 because the resolved
device index is out of range, `_device_init` has already been set, so the
manager stays marked bound with no device index recorded and no kernels
compiled, and every subsequent `init_device` — with any arguments —
takes the `if (_device_init) return 0` exit immediately. -/
theorem claim_c9 (e e2 : TopoEnv) (g g2 : GpuEnv)
    (w r f l m w2 r2 f2 l2 m2 : Int) (p p2 : ℚ) (n t n2 t2 : Int)
    (s : DeviceState) (hd : s._device_init = false)
    (h2 : (Device.init_device e g w r f l m p n t s).1 = -2) :
    (Device.init_device e g w r f l m p n t s).2._device_init = true ∧
    (Device.init_device e g w r f l m p n t s).2.gpu_set_index
      = s.gpu_set_index ∧
    (Device.init_device e g w r f l m p n t s).2._compiled = s._compiled ∧
    (Device.init_device e2 g2 w2 r2 f2 l2 m2 p2 n2 t2
        (Device.init_device e g w r f l m p n t s).2).1 = 0 := by
  obtain ⟨-, hdev, -, hfail, -⟩ :=
    Device.init_device_unbound_topology e g w r f l m p n t s hd
  obtain ⟨hgs, hcomp⟩ := hfail h2
  refine ⟨hdev, hgs, hcomp, ?_⟩
  rw [Device.init_device_bound e2 g2 w2 r2 f2 l2 m2 p2 n2 t2 _ hdev]

theorem claim_c9_witness :
    freshDevice._device_init = false ∧
    (Device.init_device exTopo exGpuNone 0 0 0 0 0 1 1 3 freshDevice).1 = -2 ∧
    ((Device.init_device exTopo exGpuNone 0 0 0 0 0 1 1 3
        freshDevice).2._device_init = true ∧
     (Device.init_device exTopo exGpuNone 0 0 0 0 0 1 1 3
        freshDevice).2.gpu_set_index = freshDevice.gpu_set_index ∧
     (Device.init_device exTopo exGpuNone 0 0 0 0 0 1 1 3
        freshDevice).2._compiled = freshDevice._compiled ∧
     (Device.init_device exTopo exGpu 0 0 0 0 0 1 1 3
        (Device.init_device exTopo exGpuNone 0 0 0 0 0 1 1 3
          freshDevice).2).1 = 0) :=
  ⟨by decide, by decide,
   claim_c9 exTopo exTopo exGpuNone exGpu 0 0 0 0 0 0 0 0 0 0 1 1 1 3 1 3
     freshDevice (by decide) (by decide)⟩

/-- Claim C10: every `clear` that finds a positive attach count resets
`_long_range_precompute` to 0 — also when the hook was just registered by
`set_single_precompute` or `set_double_precompute`, and also when the
count stays positive afterwards, so one detach unregisters the precompute
client for the clients that remain attached. -/
theorem claim_c10 (s : DeviceState) (h : 0 < s._init_count) :
    (Device.clear s)._long_range_precompute = 0 ∧
    (Device.clear (Device.set_single_precompute s))._long_range_precompute
      = 0 ∧
    (Device.clear (Device.set_double_precompute s))._long_range_precompute
      = 0 ∧
    (1 < s._init_count → 0 < (Device.clear s)._init_count) := by
  have hs1 : 0 < (Device.set_single_precompute s)._init_count := h
  have hs2 : 0 < (Device.set_double_precompute s)._init_count := h
  refine ⟨Device.clear_precompute s h, Device.clear_precompute _ hs1,
    Device.clear_precompute _ hs2, ?_⟩
  intro h1
  rw [Device.clear_count, if_pos h]
  omega

theorem claim_c10_witness :
    0 < ({ freshDevice with _init_count := 2 } : DeviceState)._init_count ∧
    ((Device.clear
        ({ freshDevice with _init_count := 2 }
          : DeviceState))._long_range_precompute = 0 ∧
     (Device.clear (Device.set_single_precompute
        ({ freshDevice with _init_count := 2 }
          : DeviceState)))._long_range_precompute = 0 ∧
     (Device.clear (Device.set_double_precompute
        ({ freshDevice with _init_count := 2 }
          : DeviceState)))._long_range_precompute = 0 ∧
     (1 < ({ freshDevice with _init_count := 2 } : DeviceState)._init_count →
       0 < (Device.clear
          ({ freshDevice with _init_count := 2 }
            : DeviceState))._init_count)) :=
  ⟨by decide,
   claim_c10 { freshDevice with _init_count := 2 } (by decide)⟩

end LammpsGpu
